import Mathlib

/-!
Shallow embedding of the typed data-access layer of `rust-netcdf`
(`src/variable.rs`): the `Numeric` access capability set, the `Variable`
entity, and variable discovery.  Engine calls (libnetcdf) are modelled as
explicit function parameters returning an error code together with the data
the call would deposit; machine integers become `Nat`/`Int`.
-/

/-- Error kinds of the access layer, carrying the exact message strings the
source produces.  The source returns plain `String`s; the constructors record
the classification of spec section 7 (ShapeError, CapacityError,
TypeMismatchError, EngineError). -/
inductive NcError where
  | shape (msg : String)
  | capacity (msg : String)
  | typeMismatch (msg : String)
  | engine (code : Int)
deriving DecidableEq, Repr

def NcError.isShape : NcError → Bool
  | .shape _ => true
  | _ => false

def NcError.isCapacity : NcError → Bool
  | .capacity _ => true
  | _ => false

def NcError.isTypeMismatch : NcError → Bool
  | .typeMismatch _ => true
  | _ => false

def NcError.isEngine : NcError → Bool
  | .engine _ => true
  | _ => false

/-- Message of the cardinality check on `indices` (variable.rs lines 120-122,
148-150, 199-201, 252-254). -/
def idxCardMsg : String := "`indices` must has the same length as the variable dimensions"

/-- Message of the cardinality check `indices.len() == slice_len.len()`
(variable.rs lines 151-153, 202-204, 277-279). -/
def sliceCardMsg : String := "`slice` must has the same length as the variable dimensions"

/-- Message of the per-dimension index bound check. -/
def idxBoundMsg : String := "requested index is bigger than the dimension length"

/-- Message of the per-dimension slice bound check. -/
def sliceBoundMsg : String := "requested slice is bigger than the dimension length"

/-- Message of the positive-slice-element check. -/
def slicePosMsg : String := "Each slice element must be superior than 0"

/-- Message of the value-count check in `put_values_at` (variable.rs line 295). -/
def valuesLenMsg : String := "number of element in `values` doesn\x27t match `slice_len`"

/-- Message of the buffer capacity check (variable.rs lines 98-102, 220-225). -/
def capacityMsg (needed : Nat) : String :=
  "Buffer is not big enough. (size " ++ toString needed ++ " needed)"

/-- Message of the exact-type accessor kind check (variable.rs line 19). -/
def typeCastMsg : String := "Types are not equivalent and cast==false"

/-- Modelled from the spec: the engine's success code `NC_NOERR` from the
external binding (netcdf-sys). -/
def NC_NOERR : Int := 0

/-- Modelled from the spec: numeric element-kind tags from the external engine
binding (netcdf-sys).  Only their pairwise distinctness is relied upon. -/
def NC_BYTE : Int := 1

def NC_CHAR : Int := 2

def NC_SHORT : Int := 3

def NC_INT : Int := 4

def NC_FLOAT : Int := 5

def NC_DOUBLE : Int := 6

def NC_USHORT : Int := 8

def NC_UINT : Int := 9

def NC_INT64 : Int := 10

def NC_UINT64 : Int := 11

/-- A dimension record (external `dimension.rs`): name, engine id, length. -/
structure Dimension where
  name : String
  id : Int
  len : Nat
deriving DecidableEq, Repr

instance : Inhabited Dimension := ⟨⟨"", 0, 0⟩⟩

/-- An attribute record (variable.rs lines 470-476): name, value type tag,
id, owning variable and file/group ids. -/
structure Attribute where
  name : String
  attrtype : Int
  id : Int
  var_id : Int
  file_id : Int
deriving DecidableEq, Repr

/-- The attribute cache `HashMap<String, Attribute>`, modelled as an
association list whose `attrInsert` overwrites the entry under a key. -/
abbrev AttrMap := List (String × Attribute)

/-- HashMap::insert — the new binding replaces any existing binding of `k`. -/
def attrInsert (m : AttrMap) (k : String) (a : Attribute) : AttrMap :=
  (k, a) :: m.filter (fun p => p.1 != k)

/-- HashMap lookup on the modelled cache. -/
def attrLookup (m : AttrMap) (k : String) : Option Attribute :=
  (m.find? (fun p => p.1 == k)).map Prod.snd

/-- The `Variable` struct (variable.rs lines 417-428). -/
structure Variable where
  name : String
  attributes : AttrMap
  dimensions : List Dimension
  vartype : Int
  id : Int
  len : Nat
  grp_id : Int
deriving DecidableEq, Repr

/-- A caller-supplied `Vec` buffer: its reserved capacity and its current
elements (the `len` of the Vec is `data.length`). -/
structure Buffer (K : Type) where
  capacity : Nat
  data : List K
deriving DecidableEq, Repr

/-- Effect of `Vec::set_len n` on a buffer the engine then writes `content`
into: the vector afterwards holds exactly `n` elements, the engine-written
ones first. -/
def setLenFill {K : Type} [Inhabited K] (n : Nat) (content : List K) : List K :=
  (content ++ List.replicate n default).take n

/-- The per-dimension validation loop shared by `slice_from_variable`
(variable.rs lines 156-169) and `read_slice_into_buffer` (lines 206-219):
per dimension, index bound, then slice bound, then positivity; multiplies the
accumulator by each slice element.  The trailing catch-all is unreachable
because both callers first check that all three lists have equal length. -/
def validateSliceLens : List Dimension → List Nat → List Nat → Nat → Except NcError Nat
  | _, [], _, acc => .ok acc
  | d :: ds, i :: is, s :: ss, acc =>
    if d.len ≤ i then .error (.shape idxBoundMsg)
    else if d.len < i + s then .error (.shape sliceBoundMsg)
    else if 0 < s then validateSliceLens ds is ss (acc * s)
    else .error (.shape slicePosMsg)
  | _, _ :: _, _, acc => .ok acc

/-- The per-dimension index validation loop of `single_value_from_variable`
(variable.rs lines 123-127) and `put_value_at` (lines 255-259).  Callers
check the cardinality first, so the list lengths agree. -/
def validateIndices : List Dimension → List Nat → Option NcError
  | _, [] => none
  | d :: ds, i :: is =>
    if d.len ≤ i then some (.shape idxBoundMsg) else validateIndices ds is
  | [], _ :: _ => none

/-- The validation loop of `put_values_at` (variable.rs lines 281-293): index
bound, slice bound, zero check, then `values_len += slice_len[i]` — the
accumulator is a SUM.  `put_values_at` never checks `indices` against the
dimension count, so running out of dimensions is a Rust panic at
`variable.dimensions[i]`, modelled as `none`. -/
def putValuesValidate : List Dimension → List Nat → List Nat → Nat →
    Option (Except NcError Nat)
  | _, [], _, acc => some (.ok acc)
  | [], _ :: _, _, _ => none
  | d :: ds, i :: is, s :: ss, acc =>
    if d.len ≤ i then some (.error (.shape idxBoundMsg))
    else if d.len < i + s then some (.error (.shape sliceBoundMsg))
    else if s = 0 then some (.error (.shape slicePosMsg))
    else putValuesValidate ds is ss (acc + s)
  | _ :: _, _ :: _, [], _ => none

/-- `Numeric::from_variable` (variable.rs lines 81-93): allocate `v.len`
elements, `set_len`, one whole-array engine call, translate a non-zero code. -/
def from_variable {K : Type} [Inhabited K] (v : Variable)
    (nc_get_var : Int → Int → Int × List K) : Except NcError (List K) :=
  if (nc_get_var v.grp_id v.id).1 ≠ NC_NOERR then
    .error (.engine (nc_get_var v.grp_id v.id).1)
  else .ok (setLenFill v.len (nc_get_var v.grp_id v.id).2)

/-- `Numeric::read_variable_into_buffer` (variable.rs lines 96-115): capacity
check against `v.len`, then `set_len` and one whole-array engine call. -/
def read_variable_into_buffer {K : Type} [Inhabited K] (v : Variable)
    (buffer : Buffer K) (nc_get_var : Int → Int → Int × List K) :
    Except NcError Unit × Buffer K :=
  if buffer.capacity < v.len then
    (.error (.capacity (capacityMsg v.len)), buffer)
  else
    if (nc_get_var v.grp_id v.id).1 ≠ NC_NOERR then
      (.error (.engine (nc_get_var v.grp_id v.id).1),
        ⟨buffer.capacity, setLenFill v.len (nc_get_var v.grp_id v.id).2⟩)
    else (.ok (), ⟨buffer.capacity, setLenFill v.len (nc_get_var v.grp_id v.id).2⟩)

/-- `Numeric::single_value_from_variable` (variable.rs lines 118-143):
cardinality check, per-dimension index bounds, one single-element engine
call. -/
def single_value_from_variable {K : Type} (v : Variable) (indices : List Nat)
    (nc_get_var1 : Int → Int → List Nat → Int × K) : Except NcError K :=
  if indices.length ≠ v.dimensions.length then .error (.shape idxCardMsg)
  else
    match validateIndices v.dimensions indices with
    | some e => .error e
    | none =>
      if (nc_get_var1 v.grp_id v.id indices).1 ≠ NC_NOERR then
        .error (.engine (nc_get_var1 v.grp_id v.id indices).1)
      else .ok (nc_get_var1 v.grp_id v.id indices).2

/-- `Numeric::slice_from_variable` (variable.rs lines 146-194): two
cardinality checks, the per-dimension validation computing the product, then
allocation of exactly that many elements and one rectangular-region engine
call. -/
def slice_from_variable {K : Type} [Inhabited K] (v : Variable)
    (indices slice_len : List Nat)
    (nc_get_vara : Int → Int → List Nat → List Nat → Int × List K) :
    Except NcError (List K) :=
  if indices.length ≠ v.dimensions.length then .error (.shape idxCardMsg)
  else if indices.length ≠ slice_len.length then .error (.shape sliceCardMsg)
  else
    match validateSliceLens v.dimensions indices slice_len 1 with
    | .error e => .error e
    | .ok values_len =>
      if (nc_get_vara v.grp_id v.id indices slice_len).1 ≠ NC_NOERR then
        .error (.engine (nc_get_vara v.grp_id v.id indices slice_len).1)
      else .ok (setLenFill values_len (nc_get_vara v.grp_id v.id indices slice_len).2)

/-- `Numeric::read_slice_into_buffer` (variable.rs lines 197-248): the same
validation as `slice_from_variable`, then a capacity check, and only then the
`set_len` and the engine call. -/
def read_slice_into_buffer {K : Type} [Inhabited K] (v : Variable)
    (indices slice_len : List Nat) (buffer : Buffer K)
    (nc_get_vara : Int → Int → List Nat → List Nat → Int × List K) :
    Except NcError Unit × Buffer K :=
  if indices.length ≠ v.dimensions.length then (.error (.shape idxCardMsg), buffer)
  else if indices.length ≠ slice_len.length then (.error (.shape sliceCardMsg), buffer)
  else
    match validateSliceLens v.dimensions indices slice_len 1 with
    | .error e => (.error e, buffer)
    | .ok values_len =>
      if buffer.capacity < values_len then
        (.error (.capacity (capacityMsg values_len)), buffer)
      else
        if (nc_get_vara v.grp_id v.id indices slice_len).1 ≠ NC_NOERR then
          (.error (.engine (nc_get_vara v.grp_id v.id indices slice_len).1),
            ⟨buffer.capacity, setLenFill values_len (nc_get_vara v.grp_id v.id indices slice_len).2⟩)
        else
          (.ok (),
            ⟨buffer.capacity, setLenFill values_len (nc_get_vara v.grp_id v.id indices slice_len).2⟩)

/-- `Numeric::put_value_at` (variable.rs lines 250-273): cardinality check,
per-dimension index bounds, one single-element engine write. -/
def put_value_at {K : Type} (v : Variable) (indices : List Nat) (value : K)
    (nc_put_var1 : Int → Int → List Nat → K → Int) : Except NcError Unit :=
  if indices.length ≠ v.dimensions.length then .error (.shape idxCardMsg)
  else
    match validateIndices v.dimensions indices with
    | some e => .error e
    | none =>
      if nc_put_var1 v.grp_id v.id indices value ≠ NC_NOERR then
        .error (.engine (nc_put_var1 v.grp_id v.id indices value))
      else .ok ()

/-- `Numeric::put_values_at` (variable.rs lines 276-317): only the
`indices.len() == slice_len.len()` cardinality check, the summing validation
loop, the value-count check against that sum, then one rectangular-region
engine write.  `none` models the Rust panic when `indices` outruns the
dimension list. -/
def put_values_at {K : Type} (v : Variable) (indices slice_len : List Nat)
    (values : List K)
    (nc_put_vara : Int → Int → List Nat → List Nat → List K → Int) :
    Option (Except NcError Unit) :=
  if indices.length ≠ slice_len.length then some (.error (.shape sliceCardMsg))
  else
    match putValuesValidate v.dimensions indices slice_len 0 with
    | none => none
    | some (.error e) => some (.error e)
    | some (.ok values_len) =>
      if values_len ≠ values.length then some (.error (.shape valuesLenMsg))
      else
        if nc_put_vara v.grp_id v.id indices slice_len values ≠ NC_NOERR then
          some (.error (.engine (nc_put_vara v.grp_id v.id indices slice_len values)))
        else some (.ok ())

/-- The `get_var_as_type!` macro body (variable.rs lines 14-33): declared-kind
check unless `cast`, then a whole-array engine call into a `v.len`-element
vector.  Each legacy accessor `get_char` .. `get_double` instantiates it at
its kind tag. -/
def get_var_as_type {K : Type} [Inhabited K] (v : Variable) (nc_type : Int)
    (cast : Bool) (nc_fn : Int → Int → Int × List K) : Except NcError (List K) :=
  if cast = false ∧ v.vartype ≠ nc_type then .error (.typeMismatch typeCastMsg)
  else
    if (nc_fn v.grp_id v.id).1 ≠ NC_NOERR then
      .error (.engine (nc_fn v.grp_id v.id).1)
    else .ok (setLenFill v.len (nc_fn v.grp_id v.id).2)

/-- `Variable::get_char` (variable.rs lines 431-433). -/
def Variable.get_char {K : Type} [Inhabited K] (v : Variable) (cast : Bool)
    (nc_fn : Int → Int → Int × List K) : Except NcError (List K) :=
  get_var_as_type v NC_CHAR cast nc_fn

/-- `Variable.get_byte` (variable.rs lines 437-439). -/
def Variable.get_byte {K : Type} [Inhabited K] (v : Variable) (cast : Bool)
    (nc_fn : Int → Int → Int × List K) : Except NcError (List K) :=
  get_var_as_type v NC_BYTE cast nc_fn

/-- `Variable.get_short` (variable.rs lines 440-442). -/
def Variable.get_short {K : Type} [Inhabited K] (v : Variable) (cast : Bool)
    (nc_fn : Int → Int → Int × List K) : Except NcError (List K) :=
  get_var_as_type v NC_SHORT cast nc_fn

/-- `Variable.get_int` (variable.rs lines 446-448). -/
def Variable.get_int {K : Type} [Inhabited K] (v : Variable) (cast : Bool)
    (nc_fn : Int → Int → Int × List K) : Except NcError (List K) :=
  get_var_as_type v NC_INT cast nc_fn

/-- `Variable.get_float` (variable.rs lines 458-460). -/
def Variable.get_float {K : Type} [Inhabited K] (v : Variable) (cast : Bool)
    (nc_fn : Int → Int → Int × List K) : Except NcError (List K) :=
  get_var_as_type v NC_FLOAT cast nc_fn

/-- `Variable.get_double` (variable.rs lines 461-463). -/
def Variable.get_double {K : Type} [Inhabited K] (v : Variable) (cast : Bool)
    (nc_fn : Int → Int → Int × List K) : Except NcError (List K) :=
  get_var_as_type v NC_DOUBLE cast nc_fn

/-- `Variable::add_attribute` (variable.rs lines 465-479): engine write via
`val.put` first (its failure propagated by `try!` with the cache untouched),
then insert into the cache under `name`.  `val_nc_type` is
`val.get_nc_type()`. -/
def add_attribute (v : Variable) (name : String) (val_nc_type : Int)
    (put : Int → Int → String → Except String Unit) :
    Except String Unit × Variable :=
  match put v.grp_id v.id name with
  | .error e => (.error e, v)
  | .ok _ =>
    (.ok (),
      { v with
        attributes := attrInsert v.attributes name
          { name := name, attrtype := val_nc_type, id := 0,
            var_id := v.id, file_id := v.grp_id } })

/-- `Variable::update_attributes` (variable.rs lines 569-583): query the
engine's current attribute count, then `clear` the cache and repopulate it
with `init_attributes` — so the cache afterwards is exactly the engine's
report.  The engine is threaded as an abstract state `s`; `init_attributes`
(external `attribute.rs`) is modelled as an oracle from state, ids and count
to the rebuilt map. -/
def update_attributes {σ : Type} (v : Variable) (s : σ)
    (nc_inq_varnatts : σ → Int → Int → Int × Int)
    (init_attributes : σ → Int → Int → Int → AttrMap) :
    Except NcError Unit × Variable :=
  if (nc_inq_varnatts s v.grp_id v.id).1 ≠ NC_NOERR then
    (.error (.engine (nc_inq_varnatts s v.grp_id v.id).1), v)
  else
    (.ok (),
      { v with
        attributes := init_attributes s v.grp_id v.id (nc_inq_varnatts s v.grp_id v.id).2 })

/-- `Variable::set_fill_value` (variable.rs lines 555-566): one
`nc_def_var_fill` engine call (which may change engine state, hence the
returned successor state), then — only on success — `update_attributes` run
against the post-call state. -/
def set_fill_value {σ K : Type} (v : Variable) (fill_value : K) (s : σ)
    (nc_def_var_fill : σ → Int → Int → K → Int × σ)
    (nc_inq_varnatts : σ → Int → Int → Int × Int)
    (init_attributes : σ → Int → Int → Int → AttrMap) :
    Except NcError Unit × Variable :=
  if (nc_def_var_fill s v.grp_id v.id fill_value).1 ≠ NC_NOERR then
    (.error (.engine (nc_def_var_fill s v.grp_id v.id fill_value).1), v)
  else
    update_attributes v (nc_def_var_fill s v.grp_id v.id fill_value).2
      nc_inq_varnatts init_attributes

/-- Resolution of one dimension id against the group catalog (variable.rs
lines 627-633): the first catalog entry with the matching id, if any. -/
def lookupDim (grp_dims : List Dimension) (dimid : Int) : Option Dimension :=
  grp_dims.find? (fun d => d.id == dimid)

/-- The dimension-resolution loop of `init_variable` (variable.rs lines
622-634): in declared order, a resolved id appends its dimension and
multiplies the length; an unresolved id is skipped. -/
def init_variable_dims (grp_dims : List Dimension) (dimids : List Int) :
    List Dimension × Nat :=
  dimids.foldl
    (fun acc dimid =>
      match lookupDim grp_dims dimid with
      | some d => (acc.1 ++ [d], acc.2 * d.len)
      | none => acc)
    ([], 1)

/-- `init_variable` (variable.rs lines 600-647): the constructed `Variable`,
with the engine-introspected name, type tag, dimension ids and attribute map
passed in as the values the engine calls produced. -/
def init_variable (grp_id varid : Int) (var_name : String) (var_type : Int)
    (dimids : List Int) (grp_dims : List Dimension) (attr_map : AttrMap) :
    Variable :=
  { name := var_name
    attributes := attr_map
    dimensions := (init_variable_dims grp_dims dimids).1
    vartype := var_type
    id := varid
    len := (init_variable_dims grp_dims dimids).2
    grp_id := grp_id }

/-! Concrete fixtures used by counterexamples and witnesses: a 2 by 3
variable and always-succeeding engines. -/

/-- A length-2 dimension. -/
def dimX : Dimension := { name := "x", id := 0, len := 2 }

/-- A length-3 dimension. -/
def dimY : Dimension := { name := "y", id := 1, len := 3 }

/-- A 2 by 3 integer variable (6 elements). -/
def v23 : Variable :=
  { name := "t", attributes := [], dimensions := [dimX, dimY],
    vartype := NC_INT, id := 0, len := 6, grp_id := 0 }

/-- An always-succeeding whole-array read engine. -/
def engGetVar : Int → Int → Int × List Int := fun _ _ => (0, [1, 2, 3, 4, 5, 6])

/-- An always-succeeding single-element read engine. -/
def engGet1 : Int → Int → List Nat → Int × Int := fun _ _ _ => (0, 9)

/-- An always-succeeding rectangular-region read engine. -/
def engGetA : Int → Int → List Nat → List Nat → Int × List Int :=
  fun _ _ _ _ => (0, [10, 11, 12, 13])

/-- An always-succeeding single-element write engine. -/
def engPut1 : Int → Int → List Nat → Int → Int := fun _ _ _ _ => 0

/-- An always-succeeding rectangular-region write engine. -/
def engPutA : Int → Int → List Nat → List Nat → List Int → Int :=
  fun _ _ _ _ _ => 0

/-- A variable that already caches a `units` attribute of char type. -/
def vAttr : Variable :=
  { v23 with
    attributes := [("units",
      { name := "units", attrtype := NC_CHAR, id := 0, var_id := 0, file_id := 0 })] }

/-- An always-succeeding attribute-write engine call (`PutAttr::put`). -/
def putOkEng : Int → Int → String → Except String Unit := fun _ _ _ => .ok ()

/-- A fill-definition engine call on a counter state: succeeds and bumps the
state. -/
def fillEng : Nat → Int → Int → Int → Int × Nat := fun s _ _ _ => (0, s + 1)

/-- An attribute-count query returning the current counter state. -/
def inqEng : Nat → Int → Int → Int × Int := fun s _ _ => (0, (s : Int))

/-- An attribute-enumeration oracle: one fill attribute tagged with the
queried count. -/
def iaEng : Nat → Int → Int → Int → AttrMap :=
  fun _ g vi n =>
    [("fill", { name := "fill", attrtype := n, id := 0, var_id := vi, file_id := g })]

/-- Invariant 4 of the spec, violated at position `j`: the start index is out
of bounds, or the slice overruns the dimension, or the slice element is
zero.  Stated with defaulted indexing so it needs no side conditions. -/
def dimsViolation (ds : List Dimension) (is ss : List Nat) (j : Nat) : Prop :=
  (ds.getD j default).len ≤ is.getD j 0 ∨
  (ds.getD j default).len < is.getD j 0 + ss.getD j 0 ∨
  ss.getD j 0 = 0

/-! Helper lemmas. -/

/-- A vector produced by `set_len n` and an engine write holds `n` elements. -/
theorem setLenFill_length {K : Type} [Inhabited K] (n : Nat) (content : List K) :
    (setLenFill n content).length = n := by
  simp [setLenFill]

/-- C1: the claim says `put_values_at` rejects exactly the calls with
`values.length` different from the PRODUCT of the shape; on the 2 by 3
variable with shape `[2, 3]` the code instead rejects the 6-element
(product-sized) payload with the ShapeError and lets the 5-element
(sum-sized) payload through to the engine call, because line 292 accumulates
`values_len += slice_len[i]` — a sum, not a product. -/
theorem put_values_at_checks_sum_not_product :
    put_values_at v23 [0, 0] [2, 3] [(1 : Int), 2, 3, 4, 5, 6] engPutA =
      some (.error (.shape valuesLenMsg)) ∧
    ([2, 3] : List Nat).prod = 6 ∧
    put_values_at v23 [0, 0] [2, 3] [(1 : Int), 2, 3, 4, 5] engPutA =
      some (.ok ()) :=
  ⟨rfl, rfl, rfl⟩

/-- C2: `read_one`, `read_slice`, `read_slice_into` and `write_one` all
reject an `indices` argument shorter than the dimension count with the
cardinality ShapeError, but `write_slice` (`put_values_at`) never compares
`indices.len()` with the dimension count: the 1-element indices call on the
2-dimensional variable passes validation and issues the engine call. -/
theorem put_values_at_skips_dims_cardinality_check :
    ([0] : List Nat).length ≠ v23.dimensions.length ∧
    put_values_at v23 [0] [1] [(7 : Int)] engPutA = some (.ok ()) ∧
    single_value_from_variable (K := Int) v23 [0] engGet1 =
      .error (.shape idxCardMsg) ∧
    slice_from_variable v23 [0] [1] engGetA = .error (.shape idxCardMsg) ∧
    read_slice_into_buffer v23 [0] [1] (⟨4, []⟩ : Buffer Int) engGetA =
      (.error (.shape idxCardMsg), ⟨4, []⟩) ∧
    put_value_at v23 [0] (7 : Int) engPut1 = .error (.shape idxCardMsg) :=
  ⟨by decide, rfl, rfl, rfl, rfl, rfl⟩

/-- C4: a successful `read_all` (`from_variable`) returns exactly `v.len`
elements, the variable's stored total element count. -/
theorem from_variable_length {K : Type} [Inhabited K] (v : Variable)
    (nc_get_var : Int → Int → Int × List K) (l : List K)
    (h : from_variable v nc_get_var = .ok l) : l.length = v.len := by
  by_cases hc : (nc_get_var v.grp_id v.id).1 ≠ NC_NOERR
  · rw [from_variable, if_pos hc] at h
    cases h
  · rw [from_variable, if_neg hc] at h
    injection h with h2
    rw [← h2]
    exact setLenFill_length v.len _

/-- Witness for C4: on the 2 by 3 variable the whole-array read returns the
6 stored elements. -/
theorem from_variable_length_witness :
    (setLenFill (K := Int) 6 [1, 2, 3, 4, 5, 6]).length = v23.len :=
  from_variable_length v23 engGetVar (setLenFill 6 [1, 2, 3, 4, 5, 6]) rfl

/-- C5: an exact-type accessor (any instantiation of `get_var_as_type`, thus
`get_char` .. `get_double`) with `cast = false` fails with the
TypeMismatchError when the variable's declared kind tag differs from the
accessor's kind; with `cast = true` it never fails for that reason; and the
generic accessors (`values` / `value_at` / `values_at`, i.e. `from_variable`,
`single_value_from_variable`, `slice_from_variable`) never consult the
declared kind tag at all. -/
theorem get_var_as_type_kind_check {K : Type} [Inhabited K] (v : Variable)
    (nc_type : Int) (nc_fn : Int → Int → Int × List K)
    (h : v.vartype ≠ nc_type) :
    get_var_as_type v nc_type false nc_fn = .error (.typeMismatch typeCastMsg) ∧
    (∀ e, get_var_as_type v nc_type true nc_fn = .error e →
      e.isTypeMismatch = false) ∧
    (∀ t, from_variable { v with vartype := t } nc_fn = from_variable v nc_fn) ∧
    (∀ t (indices : List Nat) (eng1 : Int → Int → List Nat → Int × K),
      single_value_from_variable { v with vartype := t } indices eng1 =
        single_value_from_variable v indices eng1) ∧
    (∀ t (indices slice_len : List Nat)
        (eng2 : Int → Int → List Nat → List Nat → Int × List K),
      slice_from_variable { v with vartype := t } indices slice_len eng2 =
        slice_from_variable v indices slice_len eng2) := by
  refine ⟨?_, ?_, fun t => rfl, fun t indices eng1 => rfl,
    fun t indices slice_len eng2 => rfl⟩
  · rw [get_var_as_type, if_pos ⟨rfl, h⟩]
  · intro e he
    by_cases hc : (nc_fn v.grp_id v.id).1 ≠ NC_NOERR
    · rw [get_var_as_type, if_neg (by simp), if_pos hc] at he
      injection he with h2
      rw [← h2]
      rfl
    · rw [get_var_as_type, if_neg (by simp), if_neg hc] at he
      cases he

/-- Witness for C5: a variable declared as float, read through the int
accessor without casting, yields the TypeMismatchError. -/
theorem get_var_as_type_kind_check_witness :
    get_var_as_type { v23 with vartype := NC_FLOAT } NC_INT false engGetVar =
      .error (.typeMismatch typeCastMsg) :=
  (get_var_as_type_kind_check { v23 with vartype := NC_FLOAT } NC_INT engGetVar
    (by decide)).1

/-- A successful run of the shared slice-validation loop returns the
accumulator times the product of the slice lengths. -/
theorem validateSliceLens_ok_eq : ∀ (is ss : List Nat) (ds : List Dimension)
    (acc n : Nat), ds.length = is.length → ss.length = is.length →
    validateSliceLens ds is ss acc = .ok n → n = acc * ss.prod := by
  intro is
  induction is with
  | nil =>
    intro ss ds acc n h1 h2 h3
    have hss : ss = [] := List.length_eq_zero.mp h2
    subst hss
    simp only [validateSliceLens] at h3
    injection h3 with h4
    simp [← h4]
  | cons i is ih =>
    intro ss ds acc n h1 h2 h3
    cases ds with
    | nil => simp at h1
    | cons d ds =>
      cases ss with
      | nil => simp at h2
      | cons s ss =>
        simp only [validateSliceLens] at h3
        by_cases hb1 : d.len ≤ i
        · rw [if_pos hb1] at h3
          cases h3
        · rw [if_neg hb1] at h3
          by_cases hb2 : d.len < i + s
          · rw [if_pos hb2] at h3
            cases h3
          · rw [if_neg hb2] at h3
            by_cases hb3 : 0 < s
            · rw [if_pos hb3] at h3
              have hn := ih ss ds (acc * s) n (by simpa using h1)
                (by simpa using h2) h3
              rw [hn, List.prod_cons]
              exact mul_assoc acc s ss.prod
            · rw [if_neg hb3] at h3
              cases h3

/-- A successful run of the shared slice-validation loop means no dimension
position violates invariant 4. -/
theorem validateSliceLens_ok_no_violation : ∀ (is ss : List Nat)
    (ds : List Dimension) (acc n : Nat),
    validateSliceLens ds is ss acc = .ok n →
    ∀ j, j < is.length → j < ds.length → j < ss.length →
    ¬ dimsViolation ds is ss j := by
  intro is
  induction is with
  | nil =>
    intro ss ds acc n h3 j hj _ _
    simp at hj
  | cons i is ih =>
    intro ss ds acc n h3 j hj hjd hjs
    cases ds with
    | nil => simp at hjd
    | cons d ds =>
      cases ss with
      | nil => simp at hjs
      | cons s ss =>
        simp only [validateSliceLens] at h3
        by_cases hb1 : d.len ≤ i
        · rw [if_pos hb1] at h3
          cases h3
        · rw [if_neg hb1] at h3
          by_cases hb2 : d.len < i + s
          · rw [if_pos hb2] at h3
            cases h3
          · rw [if_neg hb2] at h3
            by_cases hb3 : 0 < s
            · rw [if_pos hb3] at h3
              cases j with
              | zero =>
                simp [dimsViolation]
                omega
              | succ j =>
                have := ih ss ds (acc * s) n h3 j (by simpa using hj)
                  (by simpa using hjd) (by simpa using hjs)
                simpa [dimsViolation] using this
            · rw [if_neg hb3] at h3
              cases h3

/-- Every error the shared slice-validation loop produces is a ShapeError. -/
theorem validateSliceLens_error_isShape : ∀ (is ss : List Nat)
    (ds : List Dimension) (acc : Nat) (e : NcError),
    validateSliceLens ds is ss acc = .error e → e.isShape = true := by
  intro is
  induction is with
  | nil =>
    intro ss ds acc e h3
    simp only [validateSliceLens] at h3
    cases h3
  | cons i is ih =>
    intro ss ds acc e h3
    cases ds with
    | nil =>
      simp only [validateSliceLens] at h3
      cases h3
    | cons d ds =>
      cases ss with
      | nil =>
        simp only [validateSliceLens] at h3
        cases h3
      | cons s ss =>
        simp only [validateSliceLens] at h3
        by_cases hb1 : d.len ≤ i
        · rw [if_pos hb1] at h3
          injection h3 with h4
          rw [← h4]
          rfl
        · rw [if_neg hb1] at h3
          by_cases hb2 : d.len < i + s
          · rw [if_pos hb2] at h3
            injection h3 with h4
            rw [← h4]
            rfl
          · rw [if_neg hb2] at h3
            by_cases hb3 : 0 < s
            · rw [if_pos hb3] at h3
              exact ih ss ds (acc * s) e h3
            · rw [if_neg hb3] at h3
              injection h3 with h4
              rw [← h4]
              rfl

/-- C8: with arguments of the right cardinality, `read_slice`
(`slice_from_variable`) fails with a ShapeError whenever some dimension
violates invariant 4 (`indices[i] >= dim[i].len`, or
`indices[i] + shape[i] > dim[i].len`, or `shape[i] < 1`), and a successful
call returns a vector of exactly `product(shape)` elements. -/
theorem slice_from_variable_bounds {K : Type} [Inhabited K] (v : Variable)
    (indices slice_len : List Nat)
    (eng : Int → Int → List Nat → List Nat → Int × List K)
    (h1 : indices.length = v.dimensions.length)
    (h2 : slice_len.length = indices.length) :
    ((∃ j, j < indices.length ∧ dimsViolation v.dimensions indices slice_len j) →
      ∃ e, slice_from_variable v indices slice_len eng = .error e ∧
        e.isShape = true) ∧
    (∀ l, slice_from_variable v indices slice_len eng = .ok l →
      l.length = slice_len.prod) := by
  constructor
  · rintro ⟨j, hj, hviol⟩
    rw [slice_from_variable, if_neg (by omega), if_neg (by omega)]
    cases hval : validateSliceLens v.dimensions indices slice_len 1 with
    | error e =>
      exact ⟨e, rfl, validateSliceLens_error_isShape _ _ _ _ _ hval⟩
    | ok n =>
      exact absurd hviol
        (validateSliceLens_ok_no_violation _ _ _ _ _ hval j hj (by omega) (by omega))
  · intro l hl
    rw [slice_from_variable, if_neg (by omega), if_neg (by omega)] at hl
    split at hl
    · cases hl
    · rename_i n hval
      split at hl
      · cases hl
      · injection hl with h3
        rw [← h3, setLenFill_length]
        have := validateSliceLens_ok_eq indices slice_len v.dimensions 1 n
          h1.symm h2 hval
        simpa using this

/-- Witness for C8: start index 2 in the length-2 dimension is rejected as a
ShapeError, and the in-bounds 2 by 2 slice of the 2 by 3 variable returns
4 elements. -/
theorem slice_from_variable_bounds_witness :
    (∃ e, slice_from_variable v23 [2, 0] [1, 1] engGetA = .error e ∧
      e.isShape = true) ∧
    (setLenFill (K := Int) 4 [10, 11, 12, 13]).length = ([2, 2] : List Nat).prod :=
  ⟨(slice_from_variable_bounds v23 [2, 0] [1, 1] engGetA rfl rfl).1
      ⟨0, by decide, Or.inl (by decide)⟩,
    (slice_from_variable_bounds v23 [0, 1] [2, 2] engGetA rfl rfl).2
      (setLenFill 4 [10, 11, 12, 13]) rfl⟩

/-- C3: when the caller-supplied buffer's capacity is strictly below the
requested element count (the product of the shape), `read_slice_into`
(`read_slice_into_buffer`) with otherwise valid indices and shape fails with
the CapacityError and returns the buffer completely unchanged — in
particular its length. -/
theorem read_slice_into_buffer_capacity_error {K : Type} [Inhabited K]
    (v : Variable) (indices slice_len : List Nat) (buffer : Buffer K)
    (eng : Int → Int → List Nat → List Nat → Int × List K)
    (h1 : indices.length = v.dimensions.length)
    (h2 : slice_len.length = indices.length)
    (n : Nat) (hv : validateSliceLens v.dimensions indices slice_len 1 = .ok n)
    (hc : buffer.capacity < n) :
    read_slice_into_buffer v indices slice_len buffer eng =
      (.error (.capacity (capacityMsg n)), buffer) ∧
    n = slice_len.prod := by
  constructor
  · rw [read_slice_into_buffer, if_neg (by omega), if_neg (by omega)]
    split
    · rename_i e2 heq
      rw [hv] at heq
      cases heq
    · rename_i m heq
      rw [hv] at heq
      injection heq with hnm
      subst hnm
      rw [if_pos hc]
  · have := validateSliceLens_ok_eq indices slice_len v.dimensions 1 n
      h1.symm h2 hv
    simpa using this

/-- Witness for C3: a capacity-3 buffer cannot receive the 4-element 2 by 2
slice; the call fails with the CapacityError and the buffer is returned as
it was. -/
theorem read_slice_into_buffer_capacity_error_witness :
    read_slice_into_buffer v23 [0, 1] [2, 2] (⟨3, []⟩ : Buffer Int) engGetA =
      (.error (.capacity (capacityMsg 4)), ⟨3, []⟩) ∧
    4 = ([2, 2] : List Nat).prod :=
  read_slice_into_buffer_capacity_error v23 [0, 1] [2, 2] ⟨3, []⟩ engGetA
    rfl rfl 4 rfl (by decide)

/-- C10: every error `read_variable_into_buffer` or `read_slice_into_buffer`
returns before its engine call — i.e. every non-EngineError: cardinality
mismatch, out-of-bounds index or slice, zero slice element, insufficient
capacity — leaves the caller's buffer (length and contents) completely
unchanged, because `set_len` runs only after all validation passes. -/
theorem read_into_buffer_validation_keeps_buffer {K : Type} [Inhabited K]
    (v : Variable) (indices slice_len : List Nat) (buffer : Buffer K)
    (eng_var : Int → Int → Int × List K)
    (eng_vara : Int → Int → List Nat → List Nat → Int × List K) :
    (∀ e b, read_variable_into_buffer v buffer eng_var = (.error e, b) →
      e.isEngine = false → b = buffer) ∧
    (∀ e b, read_slice_into_buffer v indices slice_len buffer eng_vara =
      (.error e, b) → e.isEngine = false → b = buffer) := by
  constructor
  · intro e b h he
    rw [read_variable_into_buffer] at h
    split at h
    · injection h with hx hy
      exact hy.symm
    · split at h
      · injection h with hx hy
        injection hx with hx2
        rw [← hx2] at he
        simp [NcError.isEngine] at he
      · injection h with hx hy
        exact Except.noConfusion hx
  · intro e b h he
    rw [read_slice_into_buffer] at h
    split at h
    · injection h with hx hy
      exact hy.symm
    · split at h
      · injection h with hx hy
        exact hy.symm
      · split at h
        · injection h with hx hy
          exact hy.symm
        · split at h
          · injection h with hx hy
            exact hy.symm
          · split at h
            · injection h with hx hy
              injection hx with hx2
              rw [← hx2] at he
              simp [NcError.isEngine] at he
            · injection h with hx hy
              exact Except.noConfusion hx

/-- Witness for C10: the capacity-0 buffer fails the whole-array capacity
check and the zero slice element fails slice validation; both calls hand the
buffer back untouched. -/
theorem read_into_buffer_validation_keeps_buffer_witness :
    (read_variable_into_buffer v23 (⟨0, []⟩ : Buffer Int) engGetVar).2 =
      (⟨0, []⟩ : Buffer Int) ∧
    (read_slice_into_buffer v23 [0, 0] [2, 0] (⟨9, []⟩ : Buffer Int) engGetA).2 =
      (⟨9, []⟩ : Buffer Int) :=
  ⟨(read_into_buffer_validation_keeps_buffer v23 [] [] ⟨0, []⟩ engGetVar
      engGetA).1 (.capacity (capacityMsg 6))
      (read_variable_into_buffer v23 ⟨0, []⟩ engGetVar).2 rfl rfl,
    (read_into_buffer_validation_keeps_buffer v23 [0, 0] [2, 0] ⟨9, []⟩
      engGetVar engGetA).2 (.shape slicePosMsg)
      (read_slice_into_buffer v23 [0, 0] [2, 0] ⟨9, []⟩ engGetA).2 rfl rfl⟩

/-- Inserting under a key makes lookup of that key return the new record. -/
theorem attrLookup_attrInsert_self (m : AttrMap) (k : String) (a : Attribute) :
    attrLookup (attrInsert m k a) k = some a := by
  simp [attrLookup, attrInsert, List.find?_cons_of_pos]

/-- Entries whose key differs from `k` survive the overwrite filter, so a
lookup for another key sees through it. -/
theorem find?_filter_other_key (k k' : String) (tl : AttrMap) :
    k' ≠ k →
    (tl.filter (fun p => p.1 != k)).find? (fun p => p.1 == k') =
      tl.find? (fun p => p.1 == k') := by
  intro h
  induction tl with
  | nil => rfl
  | cons hd tl ih =>
    by_cases hk : hd.1 = k
    · rw [List.filter_cons_of_neg (by simp [hk]), ih,
        List.find?_cons_of_neg _ (by simp [hk, Ne.symm h])]
    · rw [List.filter_cons_of_pos (by simp [hk])]
      by_cases hb : hd.1 = k'
      · rw [List.find?_cons_of_pos _ (by simp [hb]),
          List.find?_cons_of_pos _ (by simp [hb])]
      · rw [List.find?_cons_of_neg _ (by simp [hb]),
          List.find?_cons_of_neg _ (by simp [hb]), ih]

/-- Inserting under a key leaves lookup of every other key unchanged. -/
theorem attrLookup_attrInsert_ne (m : AttrMap) (k k' : String) (a : Attribute)
    (h : k' ≠ k) : attrLookup (attrInsert m k a) k' = attrLookup m k' := by
  rw [attrLookup, attrInsert, List.find?_cons_of_neg _ (by simp [Ne.symm h]),
    find?_filter_other_key k k' m h]
  rfl

/-- C7: `add_attribute` performs the engine write (`val.put`) first; when the
write fails its error is returned and the variable — in particular the
attribute cache — is unchanged; when it succeeds, the cache afterwards maps
`name` to the freshly built record (overwriting any existing entry under
that name) and every other key to exactly what it mapped to before. -/
theorem add_attribute_engine_first (v : Variable) (name : String)
    (val_nc_type : Int) (put : Int → Int → String → Except String Unit) :
    (∀ e, put v.grp_id v.id name = .error e →
      add_attribute v name val_nc_type put = (.error e, v)) ∧
    (put v.grp_id v.id name = .ok () →
      (add_attribute v name val_nc_type put).1 = .ok () ∧
      attrLookup (add_attribute v name val_nc_type put).2.attributes name =
        some { name := name, attrtype := val_nc_type, id := 0,
               var_id := v.id, file_id := v.grp_id } ∧
      ∀ k, k ≠ name →
        attrLookup (add_attribute v name val_nc_type put).2.attributes k =
          attrLookup v.attributes k) := by
  constructor
  · intro e he
    rw [add_attribute, he]
  · intro hok
    simp only [add_attribute, hok]
    refine ⟨trivial, ?_, ?_⟩
    · exact attrLookup_attrInsert_self v.attributes name _
    · intro k hk
      exact attrLookup_attrInsert_ne v.attributes name k _ hk

/-- Witness for C7: on a variable already caching a char-typed `units`
attribute, a successful `add_attribute` overwrites it with the int-typed
record. -/
theorem add_attribute_engine_first_witness :
    attrLookup (add_attribute vAttr "units" NC_INT putOkEng).2.attributes
      "units" = some { name := "units", attrtype := NC_INT, id := 0,
                       var_id := vAttr.id, file_id := vAttr.grp_id } :=
  ((add_attribute_engine_first vAttr "units" NC_INT putOkEng).2 rfl).2.1

/-- C6: a successful `set_fill_value` first issues the fill-defining engine
call and only then rebuilds the attribute cache wholesale: the resulting
cache is exactly what `init_attributes` produces from the attribute count
the engine reports in the post-fill-call state, and it does not depend on
the cache held before the call. -/
theorem set_fill_value_rebuilds_cache {σ K : Type} (v : Variable)
    (fill_value : K) (s : σ)
    (nc_def_var_fill : σ → Int → Int → K → Int × σ)
    (nc_inq_varnatts : σ → Int → Int → Int × Int)
    (init_attributes : σ → Int → Int → Int → AttrMap)
    (h1 : (nc_def_var_fill s v.grp_id v.id fill_value).1 = NC_NOERR)
    (h2 : (nc_inq_varnatts (nc_def_var_fill s v.grp_id v.id fill_value).2
      v.grp_id v.id).1 = NC_NOERR) :
    (set_fill_value v fill_value s nc_def_var_fill nc_inq_varnatts
      init_attributes).1 = .ok () ∧
    (set_fill_value v fill_value s nc_def_var_fill nc_inq_varnatts
      init_attributes).2.attributes =
      init_attributes (nc_def_var_fill s v.grp_id v.id fill_value).2 v.grp_id
        v.id (nc_inq_varnatts (nc_def_var_fill s v.grp_id v.id fill_value).2
          v.grp_id v.id).2 ∧
    ∀ A, (set_fill_value { v with attributes := A } fill_value s
      nc_def_var_fill nc_inq_varnatts init_attributes).2.attributes =
      (set_fill_value v fill_value s nc_def_var_fill nc_inq_varnatts
        init_attributes).2.attributes := by
  refine ⟨?_, ?_, ?_⟩
  · simp [set_fill_value, update_attributes, h1, h2]
  · simp [set_fill_value, update_attributes, h1, h2]
  · intro A
    simp [set_fill_value, update_attributes, h1, h2]

/-- Witness for C6: on the counter-state engine the fill call moves the
state from 0 to 1, the re-queried count is 1, and the rebuilt cache is the
oracle's report for that count. -/
theorem set_fill_value_rebuilds_cache_witness :
    (set_fill_value v23 (7 : Int) (0 : Nat) fillEng inqEng iaEng).2.attributes =
      iaEng 1 0 0 1 :=
  (set_fill_value_rebuilds_cache v23 7 0 fillEng inqEng iaEng rfl rfl).2.1

/-- Closed form of the discovery fold: starting from any accumulator it
appends exactly the resolvable dimensions, in declared order, and multiplies
in exactly their lengths. -/
theorem init_variable_dims_foldl (grp_dims : List Dimension) :
    ∀ (dimids : List Int) (ds : List Dimension) (n : Nat),
    dimids.foldl
      (fun acc dimid =>
        match lookupDim grp_dims dimid with
        | some d => (acc.1 ++ [d], acc.2 * d.len)
        | none => acc)
      (ds, n) =
    (ds ++ dimids.filterMap (lookupDim grp_dims),
      n * ((dimids.filterMap (lookupDim grp_dims)).map Dimension.len).prod) := by
  intro dimids
  induction dimids with
  | nil =>
    intro ds n
    simp
  | cons hd tl ih =>
    intro ds n
    cases hl : lookupDim grp_dims hd with
    | none =>
      simp only [List.foldl_cons, hl, ih, List.filterMap_cons]
    | some d =>
      simp only [List.foldl_cons, hl, ih, List.filterMap_cons]
      rw [Prod.mk.injEq]
      constructor
      · simp
      · simp [mul_assoc]

/-- C9: during discovery, a dimension id the engine reports that is absent
from the group catalog is silently skipped — it contributes neither an entry
to the constructed dimension list nor a factor to the length — and every
constructed `Variable` satisfies `len = product of its resolved dimension
lengths`. -/
theorem init_variable_skips_unresolved (grp_dims : List Dimension)
    (ids1 ids2 : List Int) (bad : Int)
    (hbad : lookupDim grp_dims bad = none) :
    init_variable_dims grp_dims (ids1 ++ bad :: ids2) =
      init_variable_dims grp_dims (ids1 ++ ids2) ∧
    ∀ (grp_id varid : Int) (var_name : String) (var_type : Int)
      (dimids : List Int) (attr_map : AttrMap),
      (init_variable grp_id varid var_name var_type dimids grp_dims
        attr_map).len =
      ((init_variable grp_id varid var_name var_type dimids grp_dims
        attr_map).dimensions.map Dimension.len).prod := by
  constructor
  · rw [init_variable_dims, init_variable_dims, init_variable_dims_foldl,
      init_variable_dims_foldl]
    simp [List.filterMap_append, List.filterMap_cons, hbad]
  · intro gid vid nm vt dimids attrs
    show (init_variable_dims grp_dims dimids).2 =
      ((init_variable_dims grp_dims dimids).1.map Dimension.len).prod
    rw [init_variable_dims, init_variable_dims_foldl]
    simp

/-- Witness for C9: id 5 resolves to nothing in the catalog of `x` and `y`,
the id list `[0, 5, 1]` behaves like `[0, 1]`, and the constructed variable's
length is the product 2 * 3 of its resolved dimension lengths. -/
theorem init_variable_skips_unresolved_witness :
    init_variable_dims [dimX, dimY] ([0] ++ 5 :: [1]) =
      init_variable_dims [dimX, dimY] ([0] ++ [1]) ∧
    (init_variable 0 0 "t" NC_INT [0, 5, 1] [dimX, dimY] []).len =
      ((init_variable 0 0 "t" NC_INT [0, 5, 1] [dimX, dimY]
        []).dimensions.map Dimension.len).prod :=
  ⟨(init_variable_skips_unresolved [dimX, dimY] [0] [1] 5 (by decide)).1,
    (init_variable_skips_unresolved [dimX, dimY] [0] [1] 5 (by decide)).2
      0 0 "t" NC_INT [0, 5, 1] []⟩
